import Mathlib

/-!
# Verification of the SwarmUI image-generation client
(`backend/open_webui/utils/images/swarmui.py`)

Shallow embedding of the module's pure logic. Network effects are modelled by
an explicit environment: each HTTP POST's outcome is a `Transport` value
(a raised transport exception, or a response with a status code and a body
whose JSON parse may itself fail). The functions below are direct translations
of the Python source; doc comments cite the source lines.
-/

namespace SwarmUI

/-- A JSON value as far as this module manipulates one: the generation payload
only ever stores strings, integers, or `None` (Python `payload.steps` may be
`None` and is stored as-is). -/
inductive JVal where
  | str (s : String)
  | int (n : Int)
  | null
deriving DecidableEq

/-- Outcome of one `requests.post` call, as seen by the caller:
    * `fail msg`  — the call itself raised (DNS/connect/timeout/...);
    * `resp status body` — an HTTP response arrived with the given status code;
      `body` is the result of `resp.json()` (`Except.error` when the body is
      unparseable, in which case `.json()` raises). -/
inductive Transport (β : Type) where
  | fail (msg : String)
  | resp (status : Nat) (body : Except String β)

/-- `requests.Response.raise_for_status` raises exactly for 4xx and 5xx
status codes. -/
def raiseForStatusRaises (status : Nat) : Bool :=
  400 ≤ status && status < 600

/-- Message of the exception captured by `except Exception as e: ... str(e)`
when `raise_for_status` raised (the precise requests-formatted text is
irrelevant to every claim; only that an error string is produced matters). -/
def httpErrorMsg (status : Nat) : String :=
  "HTTP error " ++ toString status

/-- Python `str.startswith`, modelled on the character list so it is
kernel-computable. -/
def startsWithStr (s pre : String) : Bool :=
  pre.data.isPrefixOf s.data

/-- Python truthiness test `not x` for an optional string
(`None` and `""` are falsy). -/
def isFalsy : Option String → Bool
  | none => true
  | some s => s == ""

/-- Does the association list (a Python `dict` in insertion order) contain
the key `k`? -/
def hasKey {α : Type} (d : List (String × α)) (k : String) : Bool :=
  d.any (fun kv => kv.1 = k)

/-- Python `dict` assignment `d[k] = v`: overwrite in place when the key is
present, append otherwise. -/
def dictInsert {α : Type} (d : List (String × α)) (k : String) (v : α) :
    List (String × α) :=
  if hasKey d k then d.map (fun kv => if kv.1 = k then (k, v) else kv)
  else d ++ [(k, v)]

/-- Python `{**d, **kvs}`-style update: insert each pair of `kvs` into `d` in
order, with `dict` overwrite semantics. -/
def dictUpdate {α : Type} (d kvs : List (String × α)) : List (String × α) :=
  kvs.foldl (fun acc kv => dictInsert acc kv.1 kv.2) d

/-- `SwarmUIGenerateImageForm` (source lines 74–82): the generation request. -/
structure SwarmUIGenerateImageForm where
  prompt : String
  negative_prompt : Option String
  width : Int
  height : Int
  n : Int
  steps : Option Int
  seed : Option Int
  model : Option String

/-- Headers built by `get_swarmui_session_id` (source lines 87–89):
`{"User-Agent": "Mozilla/5.0"}`, plus `Authorization` when `api_key` is
truthy. -/
def get_swarmui_session_id_headers (api_key : String) : List (String × String) :=
  if api_key == "" then [("User-Agent", "Mozilla/5.0")]
  else [("User-Agent", "Mozilla/5.0"), ("Authorization", "Bearer " ++ api_key)]

/-- Headers built by `swarmui_generate_image` (source lines 117–119): same
construction as in `get_swarmui_session_id`. -/
def swarmui_generate_image_headers (api_key : String) : List (String × String) :=
  if api_key == "" then [("User-Agent", "Mozilla/5.0")]
  else [("User-Agent", "Mozilla/5.0"), ("Authorization", "Bearer " ++ api_key)]

/-- Headers built by `list_swarmui_models` (source line 196):
`{"Authorization": f"Bearer {api_key}", "Content-Type": "application/json"}` —
unconditionally, with no `User-Agent`. -/
def list_swarmui_models_headers (api_key : String) : List (String × String) :=
  [("Authorization", "Bearer " ++ api_key), ("Content-Type", "application/json")]

/-- Headers built by `select_swarmui_model` (source line 218): identical to the
`list_swarmui_models` headers. -/
def select_swarmui_model_headers (api_key : String) : List (String × String) :=
  [("Authorization", "Bearer " ++ api_key), ("Content-Type", "application/json")]

/-- `get_swarmui_session_id` (source lines 85–102). The body of a successful
parse is `data.get("session_id")`, i.e. `none` when the field is absent.
Any exception — transport failure, `raise_for_status`, or `resp.json()` —
is caught and `None` is returned. -/
def get_swarmui_session_id (t : Transport (Option String)) : Option String :=
  match t with
  | .fail _ => none
  | .resp status body =>
    if raiseForStatusRaises status then none
    else
      match body with
      | .error _ => none
      | .ok sid => sid

/-- Conversion of an optional integer field into the stored JSON value
(Python stores `payload.steps` unchanged, so `None` becomes JSON null). -/
def jOfOptInt : Option Int → JVal
  | some n => .int n
  | none => .null

/-- `raw_input` (source lines 125–138): the base dict literal followed by the
three conditional assignments (`if payload.negative_prompt`,
`if payload.seed is not None`, `if model`). -/
def build_raw_input (model : String) (payload : SwarmUIGenerateImageForm)
    (session_id : String) : List (String × JVal) :=
  let raw0 : List (String × JVal) :=
    [("prompt", .str payload.prompt),
     ("width", .int payload.width),
     ("height", .int payload.height),
     ("steps", jOfOptInt payload.steps),
     ("images", .int payload.n),
     ("session_id", .str session_id)]
  let raw1 :=
    match payload.negative_prompt with
    | some np => if np == "" then raw0 else dictInsert raw0 "negative_prompt" (.str np)
    | none => raw0
  let raw2 :=
    match payload.seed with
    | some s => dictInsert raw1 "seed" (.int s)
    | none => raw1
  if model == "" then raw2 else dictInsert raw2 "model" (.str model)

/-- `data` (source lines 140–144): the dict literal
`{"images": payload.n, "session_id": session_id, **{k: v for k, v in
raw_input.items() if k != "session_id"}}` with Python dict-merge
(overwrite-in-place) semantics. -/
def build_data (model : String) (payload : SwarmUIGenerateImageForm)
    (session_id : String) : List (String × JVal) :=
  dictUpdate
    [("images", .int payload.n), ("session_id", .str session_id)]
    ((build_raw_input model payload session_id).filter
      (fun kv => kv.1 ≠ "session_id"))

/-- Parsed body of a `/API/GenerateText2Image` response: the two fields the
code reads. `error_id = none` models the key being absent; `images = none`
models the `images` key being absent (so `result.get("images", [])` falls back
to `[]`). -/
structure GenBody where
  error_id : Option String
  images : Option (List String)

/-- `"error_id" in result and result["error_id"] == "invalid_session_id"`
(source line 155). -/
def hasExpiredSession (b : GenBody) : Bool :=
  match b.error_id with
  | some e => e == "invalid_session_id"
  | none => false

/-- `result.get("images", [])` (source line 170). -/
def getImages (b : GenBody) : List String :=
  b.images.getD []

/-- One entry of the returned image list: `{"url": ...}` (source lines
172, 175). -/
structure ImageRef where
  url : String

/-- The url computed for one image-list entry (source lines 171–175):
`data:` prefix → unchanged; otherwise unchanged when the entry starts with
`http`, else joined to the base url with `/`. -/
def resolveImagePath (base_url img_path : String) : String :=
  if startsWithStr img_path "data:" then img_path
  else if startsWithStr img_path "http" then img_path
  else base_url ++ "/" ++ img_path

/-- The image list built by the loop at source lines 169–175. -/
def mkImages (base_url : String) (paths : List String) : List ImageRef :=
  paths.map (fun p => { url := resolveImagePath base_url p })

/-- A value stored in the dict returned by `swarmui_generate_image`: the
`error` key holds a string, the `data` key holds the image list. -/
inductive RVal where
  | str (s : String)
  | images (imgs : List ImageRef)

/-- The remote server's behavior during one invocation: the outcome of the
i-th `POST /API/GetNewSession` and of the i-th `POST /API/GenerateText2Image`.
Quantifying over `Env` quantifies over every sequence of server responses. -/
structure Env where
  session : Nat → Transport (Option String)
  gen : Nat → Transport GenBody

/-- Observable outcome of one `swarmui_generate_image` invocation: the
returned dict, the number of `get_swarmui_session_id` calls made, and the
payloads of the generation POSTs actually sent, in order. -/
structure GenTrace where
  result : List (String × RVal)
  sessionCalls : Nat
  posted : List (List (String × JVal))

/-- `swarmui_generate_image` (source lines 105–179), direct translation.
`client_id` and `api_key` are accepted as in the source; `client_id` is only
logged and `api_key` only shapes the headers
(`swarmui_generate_image_headers`). -/
def swarmui_generate_image (model : String) (payload : SwarmUIGenerateImageForm)
    (client_id base_url api_key : String) (env : Env) : GenTrace :=
  let session0 := get_swarmui_session_id (env.session 0)
  if isFalsy session0 then
    { result := [("error", .str "Could not obtain SwarmUI session id")],
      sessionCalls := 1, posted := [] }
  else
    let sid := session0.getD ""
    let data := build_data model payload sid
    match env.gen 0 with
    | .fail msg =>
      { result := [("error", .str msg)], sessionCalls := 1, posted := [data] }
    | .resp status body =>
      if raiseForStatusRaises status then
        { result := [("error", .str (httpErrorMsg status))],
          sessionCalls := 1, posted := [data] }
      else
        match body with
        | .error msg =>
          { result := [("error", .str msg)], sessionCalls := 1, posted := [data] }
        | .ok result0 =>
          if hasExpiredSession result0 then
            let session1 := get_swarmui_session_id (env.session 1)
            if isFalsy session1 then
              { result := [("error", .str "Could not obtain SwarmUI session id (retry)")],
                sessionCalls := 2, posted := [data] }
            else
              let data2 := dictInsert data "session_id" (.str (session1.getD ""))
              match env.gen 1 with
              | .fail msg =>
                { result := [("error", .str msg)],
                  sessionCalls := 2, posted := [data, data2] }
              | .resp status2 body2 =>
                if raiseForStatusRaises status2 then
                  { result := [("error", .str (httpErrorMsg status2))],
                    sessionCalls := 2, posted := [data, data2] }
                else
                  match body2 with
                  | .error msg =>
                    { result := [("error", .str msg)],
                      sessionCalls := 2, posted := [data, data2] }
                  | .ok result1 =>
                    { result := [("data", .images (mkImages base_url (getImages result1)))],
                      sessionCalls := 2, posted := [data, data2] }
          else
            { result := [("data", .images (mkImages base_url (getImages result0)))],
              sessionCalls := 1, posted := [data] }

/-- Parsed body of a `/API/ListModels` response: `files = none` models the
`files` key being absent. Model descriptors are opaque to this module and
modelled as strings. -/
structure ListModelsBody where
  files : Option (List String)

/-- `list_swarmui_models` (source lines 182–205): returns
`data.get("files", [])` on success, `[]` on any exception. -/
def list_swarmui_models (t : Transport ListModelsBody) : List String :=
  match t with
  | .fail _ => []
  | .resp status body =>
    if raiseForStatusRaises status then []
    else
      match body with
      | .error _ => []
      | .ok b => b.files.getD []

/-- Parsed body of a `/API/SelectModel` response: `success = none` models the
`success` key being absent (so `data.get("success", False)` falls back to
`False`). -/
structure SelectModelBody where
  success : Option Bool

/-- `select_swarmui_model` (source lines 208–226): returns
`data.get("success", False)` on success, `False` on any exception. -/
def select_swarmui_model (t : Transport SelectModelBody) : Bool :=
  match t with
  | .fail _ => false
  | .resp status body =>
    if raiseForStatusRaises status then false
    else
      match body with
      | .error _ => false
      | .ok b => b.success.getD false

/-! ## Concrete sample inputs used to exercise the definitions -/

/-- A minimal well-formed generation request. -/
def sampleForm : SwarmUIGenerateImageForm :=
  { prompt := "cat", negative_prompt := none, width := 512, height := 512,
    n := 1, steps := none, seed := none, model := none }

/-- A generation response body with one relative image path and no error. -/
def happyBody : GenBody :=
  { error_id := none, images := some ["outputs/1.png"] }

/-- A generation response body carrying the session-expiry sentinel. -/
def expiredBody : GenBody :=
  { error_id := some "invalid_session_id", images := none }

/-- A server that always hands out session `"s1"` and always answers the
generation POST with `happyBody`. -/
def envHappy : Env :=
  { session := fun _ => .resp 200 (.ok (some "s1")),
    gen := fun _ => .resp 200 (.ok happyBody) }

/-- A server whose session endpoint is down. -/
def envNoSession : Env :=
  { session := fun _ => .fail "connection refused",
    gen := fun _ => .fail "unreachable" }

/-- A server that grants the first session, answers every generation POST
with the expiry sentinel, and refuses the second session request. -/
def envExpiredThenDown : Env :=
  { session := fun i => if i = 0 then .resp 200 (.ok (some "s1")) else .fail "connection refused",
    gen := fun _ => .resp 200 (.ok expiredBody) }

/-- A server whose generation response parses but has no `images` key. -/
def envMissingImages : Env :=
  { session := fun _ => .resp 200 (.ok (some "s1")),
    gen := fun _ => .resp 200 (.ok { error_id := none, images := none }) }

end SwarmUI

namespace SwarmUI

/-! ## Claim theorems -/

/-- Claim C2: For every invocation of `swarmui_generate_image` and every
sequence of server responses (including a server that answers every
generation POST with the session-expiry sentinel), the invocation performs at
most 2 session-acquisition calls and issues at most 2 generation POSTs. -/
theorem generate_at_most_two_rounds (model : String)
    (payload : SwarmUIGenerateImageForm) (client_id base_url api_key : String)
    (env : Env) :
    (swarmui_generate_image model payload client_id base_url api_key env).sessionCalls ≤ 2
    ∧ (swarmui_generate_image model payload client_id base_url api_key env).posted.length ≤ 2 := by
  unfold swarmui_generate_image
  dsimp only
  repeat' split
  all_goals simp

/-- Claim C6: Every value returned by `swarmui_generate_image` contains exactly
one of the keys `error` (a string reason) and `data` (the image list), never
both; in particular absence of `error` implies the image list is present
(possibly empty). -/
theorem generate_result_exclusive_keys (model : String)
    (payload : SwarmUIGenerateImageForm) (client_id base_url api_key : String)
    (env : Env) :
    (hasKey (swarmui_generate_image model payload client_id base_url api_key env).result "error" = true
      ∧ hasKey (swarmui_generate_image model payload client_id base_url api_key env).result "data" = false
      ∧ ∃ msg, (swarmui_generate_image model payload client_id base_url api_key env).result
          = [("error", RVal.str msg)])
    ∨ (hasKey (swarmui_generate_image model payload client_id base_url api_key env).result "data" = true
      ∧ hasKey (swarmui_generate_image model payload client_id base_url api_key env).result "error" = false
      ∧ ∃ imgs, (swarmui_generate_image model payload client_id base_url api_key env).result
          = [("data", RVal.images imgs)]) := by
  unfold swarmui_generate_image
  dsimp only
  repeat' split
  all_goals simp [hasKey]

/-- Claim C3: If the initial session acquisition returns null,
`swarmui_generate_image` returns
`{"error": "Could not obtain SwarmUI session id"}` and issues zero generation
POSTs. -/
theorem generate_no_session_no_post (model : String)
    (payload : SwarmUIGenerateImageForm) (client_id base_url api_key : String)
    (env : Env) (h : get_swarmui_session_id (env.session 0) = none) :
    (swarmui_generate_image model payload client_id base_url api_key env).result
      = [("error", RVal.str "Could not obtain SwarmUI session id")]
    ∧ (swarmui_generate_image model payload client_id base_url api_key env).posted = [] := by
  unfold swarmui_generate_image
  simp [h, isFalsy]

theorem generate_no_session_no_post_witness :
    get_swarmui_session_id (envNoSession.session 0) = none
    ∧ ((swarmui_generate_image "m" sampleForm "c" "https://svc.example" "k" envNoSession).result
        = [("error", RVal.str "Could not obtain SwarmUI session id")]
      ∧ (swarmui_generate_image "m" sampleForm "c" "https://svc.example" "k" envNoSession).posted = []) :=
  ⟨rfl, generate_no_session_no_post "m" sampleForm "c" "https://svc.example" "k" envNoSession rfl⟩

/-- Claim C1: If the first generation POST succeeds at the HTTP level but its
body carries `error_id == "invalid_session_id"`, exactly one additional
session acquisition is performed (2 in total) and at most one additional
generation POST is sent (at most 2 in total); and if that second session
acquisition returns null, the function returns
`{"error": "Could not obtain SwarmUI session id (retry)"}` having sent no
further POST (exactly 1 in total). -/
theorem generate_retry_once_on_expiry (model : String)
    (payload : SwarmUIGenerateImageForm) (client_id base_url api_key : String)
    (env : Env) (st : Nat) (b : GenBody)
    (hs0 : isFalsy (get_swarmui_session_id (env.session 0)) = false)
    (hg : env.gen 0 = .resp st (.ok b))
    (hok : raiseForStatusRaises st = false)
    (herr : hasExpiredSession b = true) :
    (swarmui_generate_image model payload client_id base_url api_key env).sessionCalls = 2
    ∧ (swarmui_generate_image model payload client_id base_url api_key env).posted.length ≤ 2
    ∧ (get_swarmui_session_id (env.session 1) = none →
        (swarmui_generate_image model payload client_id base_url api_key env).result
          = [("error", RVal.str "Could not obtain SwarmUI session id (retry)")]
        ∧ (swarmui_generate_image model payload client_id base_url api_key env).posted.length = 1) := by
  unfold swarmui_generate_image
  simp only [hg, hs0, hok, herr, Bool.false_eq_true, if_false, if_true]
  refine ⟨?_, ?_, ?_⟩
  · repeat' split
    all_goals rfl
  · repeat' split
    all_goals simp
  · intro h1
    simp [h1, isFalsy]

theorem generate_retry_once_on_expiry_witness :
    (isFalsy (get_swarmui_session_id (envExpiredThenDown.session 0)) = false
      ∧ envExpiredThenDown.gen 0 = .resp 200 (.ok expiredBody)
      ∧ raiseForStatusRaises 200 = false
      ∧ hasExpiredSession expiredBody = true
      ∧ get_swarmui_session_id (envExpiredThenDown.session 1) = none)
    ∧ ((swarmui_generate_image "m" sampleForm "c" "https://svc.example" "k" envExpiredThenDown).sessionCalls = 2
      ∧ (swarmui_generate_image "m" sampleForm "c" "https://svc.example" "k" envExpiredThenDown).result
          = [("error", RVal.str "Could not obtain SwarmUI session id (retry)")]
      ∧ (swarmui_generate_image "m" sampleForm "c" "https://svc.example" "k" envExpiredThenDown).posted.length = 1) := by
  have h := generate_retry_once_on_expiry "m" sampleForm "c" "https://svc.example" "k"
    envExpiredThenDown 200 expiredBody rfl rfl rfl rfl
  exact ⟨⟨rfl, rfl, rfl, rfl, rfl⟩, h.1, (h.2.2 rfl).1, (h.2.2 rfl).2⟩

/-- Claim C5: If session acquisition succeeds and the generation POST succeeds
without a session-expiry signal, the result is `{"data": images}` with one
image per entry of the response's image list; and if the response body lacks
the `images` key entirely, the result is `{"data": []}` rather than an
error. -/
theorem generate_success_image_count (model : String)
    (payload : SwarmUIGenerateImageForm) (client_id base_url api_key : String)
    (env : Env) (st : Nat) (b : GenBody)
    (hs0 : isFalsy (get_swarmui_session_id (env.session 0)) = false)
    (hg : env.gen 0 = .resp st (.ok b))
    (hok : raiseForStatusRaises st = false)
    (hno : hasExpiredSession b = false) :
    (swarmui_generate_image model payload client_id base_url api_key env).result
      = [("data", RVal.images (mkImages base_url (getImages b)))]
    ∧ (mkImages base_url (getImages b)).length = (getImages b).length
    ∧ (b.images = none →
        (swarmui_generate_image model payload client_id base_url api_key env).result
          = [("data", RVal.images [])]) := by
  unfold swarmui_generate_image
  simp only [hg, hs0, hok, hno, Bool.false_eq_true, if_false, if_true]
  refine ⟨by trivial, by simp [mkImages], fun h1 => by simp [getImages, h1, mkImages]⟩

theorem generate_success_image_count_witness :
    (isFalsy (get_swarmui_session_id (envHappy.session 0)) = false
      ∧ envHappy.gen 0 = .resp 200 (.ok happyBody)
      ∧ raiseForStatusRaises 200 = false
      ∧ hasExpiredSession happyBody = false)
    ∧ (swarmui_generate_image "" sampleForm "c" "https://svc.example" "" envHappy).result
        = [("data", RVal.images [{ url := "https://svc.example/outputs/1.png" }])] := by
  have h := generate_success_image_count "" sampleForm "c" "https://svc.example" ""
    envHappy 200 happyBody rfl rfl rfl rfl
  exact ⟨⟨rfl, rfl, rfl, rfl⟩, h.1⟩

/-- Claim C4 counterexample: The claim's three-way rule demands that a string
starting with none of `http://`, `https://`, `data:` be joined to the base
url; the code instead passes through any string with prefix `http`, e.g.
`"httpx.png"`. -/
theorem url_rule_scheme_counterexample :
    startsWithStr "httpx.png" "http://" = false
    ∧ startsWithStr "httpx.png" "https://" = false
    ∧ startsWithStr "httpx.png" "data:" = false
    ∧ resolveImagePath "https://svc.example" "httpx.png"
        ≠ "https://svc.example" ++ "/" ++ "httpx.png"
    ∧ resolveImagePath "https://svc.example" "httpx.png" = "httpx.png" := by
  decide

/-- Claim C4 as amended: For every string entry in the response's image list:
an entry starting with `data:` is returned unchanged; otherwise an entry
starting with `http` (which covers every `http://` and `https://` URL, but
also any other string with that prefix) is returned unchanged; any other
string `p` is returned as `base_url ++ "/" ++ p`. -/
theorem url_rule_three_way (base_url p : String) :
    (startsWithStr p "data:" = true → resolveImagePath base_url p = p)
    ∧ (startsWithStr p "data:" = false → startsWithStr p "http" = true →
        resolveImagePath base_url p = p)
    ∧ (startsWithStr p "data:" = false → startsWithStr p "http" = false →
        resolveImagePath base_url p = base_url ++ "/" ++ p) := by
  refine ⟨fun h => ?_, fun h1 h2 => ?_, fun h1 h2 => ?_⟩ <;>
    simp [resolveImagePath, *]

theorem url_rule_three_way_witness :
    (startsWithStr "data:image/png;base64,AA" "data:" = true
      ∧ resolveImagePath "b" "data:image/png;base64,AA" = "data:image/png;base64,AA")
    ∧ (startsWithStr "outputs/1.png" "data:" = false
      ∧ startsWithStr "outputs/1.png" "http" = false
      ∧ resolveImagePath "https://svc.example" "outputs/1.png"
          = "https://svc.example" ++ "/" ++ "outputs/1.png") :=
  ⟨⟨by decide, (url_rule_three_way "b" "data:image/png;base64,AA").1 (by decide)⟩,
   ⟨by decide, by decide,
    (url_rule_three_way "https://svc.example" "outputs/1.png").2.2 (by decide) (by decide)⟩⟩

/-- Claim C7: `get_swarmui_session_id` never raises: it is a total function
that returns null on a transport error, on a non-success (4xx/5xx) HTTP
status, on an unparseable body, or on a body missing the `session_id` field,
and otherwise returns the session identifier from the response. -/
theorem session_id_never_raises :
    (∀ msg, get_swarmui_session_id (.fail msg) = none)
    ∧ (∀ status body, 400 ≤ status → status < 600 →
        get_swarmui_session_id (.resp status body) = none)
    ∧ (∀ status msg, raiseForStatusRaises status = false →
        get_swarmui_session_id (.resp status (.error msg)) = none)
    ∧ (∀ status, raiseForStatusRaises status = false →
        get_swarmui_session_id (.resp status (.ok none)) = none)
    ∧ (∀ status sid, raiseForStatusRaises status = false →
        get_swarmui_session_id (.resp status (.ok (some sid))) = some sid) := by
  refine ⟨fun msg => rfl, fun status body h1 h2 => ?_,
    fun status msg h => ?_, fun status h => ?_, fun status sid h => ?_⟩
  · have hr : raiseForStatusRaises status = true := by
      simp only [raiseForStatusRaises, Bool.and_eq_true, decide_eq_true_eq]
      exact ⟨h1, h2⟩
    simp [get_swarmui_session_id, hr]
  · simp [get_swarmui_session_id, h]
  · simp [get_swarmui_session_id, h]
  · simp [get_swarmui_session_id, h]

theorem session_id_never_raises_witness :
    get_swarmui_session_id (.fail "connection refused") = none
    ∧ (400 ≤ 503 ∧ 503 < 600
      ∧ get_swarmui_session_id (.resp 503 (.ok (some "s"))) = none)
    ∧ (raiseForStatusRaises 200 = false
      ∧ get_swarmui_session_id (.resp 200 (.error "bad json")) = none
      ∧ get_swarmui_session_id (.resp 200 (.ok none)) = none
      ∧ get_swarmui_session_id (.resp 200 (.ok (some "s1"))) = some "s1") :=
  ⟨session_id_never_raises.1 "connection refused",
   ⟨by decide, by decide,
    session_id_never_raises.2.1 503 (.ok (some "s")) (by decide) (by decide)⟩,
   ⟨rfl,
    session_id_never_raises.2.2.1 200 "bad json" rfl,
    session_id_never_raises.2.2.2.1 200 rfl,
    session_id_never_raises.2.2.2.2 200 "s1" rfl⟩⟩

/-- Claim C8 counterexample: Not every request carries a `User-Agent` header:
the `list_swarmui_models` request has none; and `select_swarmui_model` sends
`Authorization: Bearer ` even when no API key is configured, violating the
claimed "if and only if". -/
theorem headers_counterexample :
    hasKey (list_swarmui_models_headers "k") "User-Agent" = false
    ∧ hasKey (select_swarmui_model_headers "") "Authorization" = true
    ∧ select_swarmui_model_headers "" = [("Authorization", "Bearer "), ("Content-Type", "application/json")] := by
  decide

/-- Claim C8 as amended: The requests of `get_swarmui_session_id` and
`swarmui_generate_image` carry `User-Agent: Mozilla/5.0`, and an
`Authorization: Bearer <apiKey>` header exactly when the API key is
non-empty; the requests of `list_swarmui_models` and `select_swarmui_model`
carry no `User-Agent` and always carry `Authorization: Bearer <apiKey>`
(even when the API key is empty) together with `Content-Type`. -/
theorem headers_per_endpoint (api_key : String) :
    hasKey (get_swarmui_session_id_headers api_key) "User-Agent" = true
    ∧ hasKey (swarmui_generate_image_headers api_key) "User-Agent" = true
    ∧ (hasKey (get_swarmui_session_id_headers api_key) "Authorization" = true ↔ api_key ≠ "")
    ∧ (hasKey (swarmui_generate_image_headers api_key) "Authorization" = true ↔ api_key ≠ "")
    ∧ hasKey (list_swarmui_models_headers api_key) "User-Agent" = false
    ∧ hasKey (list_swarmui_models_headers api_key) "Authorization" = true
    ∧ hasKey (select_swarmui_model_headers api_key) "User-Agent" = false
    ∧ hasKey (select_swarmui_model_headers api_key) "Authorization" = true := by
  by_cases h : api_key = "" <;>
    simp [get_swarmui_session_id_headers, swarmui_generate_image_headers,
      list_swarmui_models_headers, select_swarmui_model_headers, hasKey, h]

theorem headers_per_endpoint_witness :
    hasKey (get_swarmui_session_id_headers "k") "Authorization" = true
    ∧ hasKey (swarmui_generate_image_headers "k") "Authorization" = true
    ∧ hasKey (list_swarmui_models_headers "k") "User-Agent" = false :=
  ⟨(headers_per_endpoint "k").2.2.1.mpr (by decide),
   (headers_per_endpoint "k").2.2.2.1.mpr (by decide),
   (headers_per_endpoint "k").2.2.2.2.1⟩

/-- Claim C9: On every simulated transport failure — an exception from the
POST, a non-2xx (4xx/5xx) status, or an unparseable body —
`list_swarmui_models` returns the empty sequence and `select_swarmui_model`
returns `false`; both are total functions, so neither propagates an
exception. -/
theorem models_fail_sentinels :
    (∀ msg, list_swarmui_models (.fail msg) = [])
    ∧ (∀ msg, select_swarmui_model (.fail msg) = false)
    ∧ (∀ status bl, 400 ≤ status → status < 600 →
        list_swarmui_models (.resp status bl) = [])
    ∧ (∀ status bs, 400 ≤ status → status < 600 →
        select_swarmui_model (.resp status bs) = false)
    ∧ (∀ status msg, list_swarmui_models (.resp status (.error msg)) = [])
    ∧ (∀ status msg, select_swarmui_model (.resp status (.error msg)) = false) := by
  refine ⟨fun msg => rfl, fun msg => rfl, fun status bl h1 h2 => ?_,
    fun status bs h1 h2 => ?_, fun status msg => ?_, fun status msg => ?_⟩
  · simp [list_swarmui_models, raiseForStatusRaises, h1, h2]
  · simp [select_swarmui_model, raiseForStatusRaises, h1, h2]
  · by_cases hr : raiseForStatusRaises status = true <;>
      simp [list_swarmui_models, hr]
  · by_cases hr : raiseForStatusRaises status = true <;>
      simp [select_swarmui_model, hr]

theorem models_fail_sentinels_witness :
    (list_swarmui_models (.fail "connection refused") = []
      ∧ select_swarmui_model (.fail "connection refused") = false)
    ∧ (400 ≤ 500 ∧ 500 < 600
      ∧ list_swarmui_models (.resp 500 (.ok { files := some ["m"] })) = []
      ∧ select_swarmui_model (.resp 500 (.ok { success := some true })) = false)
    ∧ (list_swarmui_models (.resp 200 (.error "bad json")) = []
      ∧ select_swarmui_model (.resp 200 (.error "bad json")) = false) :=
  ⟨⟨models_fail_sentinels.1 "connection refused",
    models_fail_sentinels.2.1 "connection refused"⟩,
   ⟨by decide, by decide,
    models_fail_sentinels.2.2.1 500 (.ok { files := some ["m"] }) (by decide) (by decide),
    models_fail_sentinels.2.2.2.1 500 (.ok { success := some true }) (by decide) (by decide)⟩,
   ⟨models_fail_sentinels.2.2.2.2.1 200 "bad json",
    models_fail_sentinels.2.2.2.2.2 200 "bad json"⟩⟩

/-- Claim C10: The generation payload contains `negative_prompt` iff the
request's `negative_prompt` is a non-empty string (i.e. not falsy), contains
`seed` iff the request's `seed` is not null, contains `model` iff the `model`
argument is non-empty, and always contains `steps` — even when the request's
`steps` is null. -/
theorem payload_optional_keys (model : String)
    (payload : SwarmUIGenerateImageForm) (session_id : String) :
    hasKey (build_data model payload session_id) "negative_prompt"
      = !(isFalsy payload.negative_prompt)
    ∧ hasKey (build_data model payload session_id) "seed" = payload.seed.isSome
    ∧ hasKey (build_data model payload session_id) "model" = !(model == "")
    ∧ hasKey (build_data model payload session_id) "steps" = true := by
  obtain ⟨prompt, np, w, ht, n, steps, seed, m⟩ := payload
  rcases np with _ | np
  · rcases seed with _ | seed <;> by_cases hm : model = "" <;>
      simp [build_data, build_raw_input, dictUpdate, dictInsert, hasKey,
        isFalsy, hm]
  · by_cases hnp : np = "" <;> rcases seed with _ | seed <;>
      by_cases hm : model = "" <;>
      simp [build_data, build_raw_input, dictUpdate, dictInsert, hasKey,
        isFalsy, hm, hnp]

end SwarmUI
